import Mathlib

set_option maxRecDepth 8000

/-
Verification of the query-generation core of `export.py` (class `QueryGenerator`).

Modelling conventions for the shallow embedding:
* Python values that can appear inside the `params` dictionary are modelled by
  the inductive type `PValue`: plain strings, isoformat strings of a datetime
  (kept with their underlying epoch-seconds timestamp), datetime objects
  (epoch seconds, as an `Int`), and `timedelta` objects (seconds, as a `Nat`).
* The wall clock is made explicit: every method that calls `datetime.now`
  receives a `now : Int` argument (epoch seconds); the two `now` calls inside
  one method body are taken at the same instant.
* Each mutating method of the class is a function
  `QueryGenerator → args → QueryGenerator × Option Err`: the returned state is
  the state of `self` when the method returns or raises, and the `Option Err`
  is the raised exception (`none` = normal return).  Python mutates `self` in
  place even when a later statement raises, so the state at the moment of the
  raise is returned alongside the error.
* `self.query` and `self.ALLOWED_OPERATORS` are assigned in `__init__` and
  never reassigned, so they are modelled as top-level constants instead of
  record fields.
* A filter condition passed to `add_filter_conditions` is an arbitrary Python
  object: either a dict with string keys and string values (an association
  list; keys of a Python dict are unique) or some non-dict value.
-/

/-- Exceptions raised by the source.  All constructors except `indexError` and
`intValueError` correspond to an explicit `raise ValueError(...)` statement;
`indexError` is the `IndexError` Python raises for `""[-1]` (string index out
of range), and `intValueError` is the `ValueError` raised inside the `int()`
call of `set_window_period` (reachable because `str.isdigit` also accepts
digit-typed characters that `int()` cannot convert, such as a superscript). -/
inductive Err where
  | notADict
  | missingKey
  | badOperator
  | negativeRange
  | badWindowUnit
  | badWindowMagnitude
  | badAggregationType
  | indexError
  | intValueError
deriving Repr, DecidableEq

/-- True for the errors that Python raises as `ValueError`; `indexError` is an
`IndexError`, a different exception class. -/
def Err.isValueError : Err → Bool
  | .indexError => false
  | _ => true

/-- The two `raise ValueError` statements of `set_window_period` are the
window-validation errors of the spec's taxonomy (`InvalidWindowPeriodError`). -/
def isWindowError : Option Err → Bool
  | some .badWindowUnit => true
  | some .badWindowMagnitude => true
  | _ => false

/-- A Python value stored in the `params` dict. -/
inductive PValue where
  /-- a plain Python `str` -/
  | str (s : String)
  /-- the Python `str` produced by `datetime.isoformat()` on the datetime with
  the given epoch-seconds timestamp -/
  | timeStr (t : Int)
  /-- a Python `datetime` object with the given epoch-seconds timestamp -/
  | time (t : Int)
  /-- a Python `timedelta` object of the given number of seconds -/
  | dur (seconds : Nat)
deriving Repr, DecidableEq

/-- The epoch-seconds timestamp carried by a datetime-like `PValue`. -/
def PValue.epoch : PValue → Int
  | .timeStr t => t
  | .time t => t
  | _ => 0

/-- True exactly for a `timedelta` (seconds-based duration) value. -/
def PValue.isDuration : PValue → Bool
  | .dur _ => true
  | _ => false

/-- A Python object handed to `add_filter_conditions` as one condition:
either a dict (string keys/values, unique keys, modelled as an association
list) or any non-dict value. -/
inductive PyObj where
  | dict (entries : List (String × String))
  | nonDict
deriving Repr, DecidableEq

/-- The `params` dictionary of `QueryGenerator`.  Its key set is fixed by
`__init__` and never changes, so it is a record. -/
structure Params where
  stringParam : String
  timeRangeStart : PValue
  timeRangeStop : PValue
  windowPeriod : PValue
deriving Repr, DecidableEq

/-- The mutable instance state of `QueryGenerator` (`self.query` and
`self.ALLOWED_OPERATORS` are constants, see below). -/
structure QueryGenerator where
  params : Params
  filter_conditions : String
  aggregation_type : String
deriving Repr, DecidableEq

/-- `self.ALLOWED_OPERATORS` from `__init__`. -/
def ALLOWED_OPERATORS : List String := ["==", "!=", "<", ">", "<=", ">="]

/-- The part of the `self.query` template before `{filter_conditions}`. -/
def queryPre : String :=
  "\n                from(bucket: stringParam)\n                    |> range(start: timeRangeStart, stop: timeRangeStop)\n                    "

/-- The part of the `self.query` template between the two placeholders. -/
def queryMid : String := "\n                     "

/-- The part of the `self.query` template after `{aggregation}`. -/
def querySuf : String := "\n                    "

/-- The `self.query` template string assigned in `__init__`. -/
def queryTemplate : String :=
  queryPre ++ "{filter_conditions}" ++ queryMid ++ "{aggregation}" ++ querySuf

/-- `QueryGenerator.__init__(bucket)`.  Both `datetime.now()` calls read the
clock `now`; `timedelta(days=30)` is 30 * 86400 seconds; the isoformat strings
are kept abstract as `PValue.timeStr` of the underlying timestamp. -/
def QueryGenerator.init (bucket : String) (now : Int) : QueryGenerator :=
  { params :=
      { stringParam := bucket
        timeRangeStart := .timeStr (now - 30 * 86400)
        timeRangeStop := .timeStr now
        windowPeriod := .str "1d" }
    filter_conditions := ""
    aggregation_type := "windowed" }

/-- The f-string clause appended for one condition:
`|> filter(fn: (r) => r["{field}"] {operator} "{value}")` plus a newline. -/
def filter_clause (field operator value : String) : String :=
  "|> filter(fn: (r) => r[\"" ++ field ++ "\"] " ++ operator ++ " \"" ++ value
    ++ "\")\n"

/-- `add_filter_conditions(conditions)` for a list argument (the source wraps
a single dict into a one-element list first, see
`add_filter_conditions_dictArg`).  The loop raises at the first invalid
condition, keeping the clauses appended for the conditions before it. -/
def add_filter_conditions :
    QueryGenerator → List PyObj → QueryGenerator × Option Err
  | qg, [] => (qg, none)
  | qg, .nonDict :: _ => (qg, some .notADict)
  | qg, .dict d :: rest =>
    match d.lookup "field", d.lookup "operator", d.lookup "value" with
    | some f, some op, some v =>
      if op ∈ ALLOWED_OPERATORS then
        add_filter_conditions
          { qg with
              filter_conditions := qg.filter_conditions ++ filter_clause f op v }
          rest
      else (qg, some .badOperator)
    | _, _, _ => (qg, some .missingKey)

/-- `add_filter_conditions` called with a single dict: the source's
`isinstance(conditions, dict)` branch wraps it into a one-element list. -/
def add_filter_conditions_dictArg (qg : QueryGenerator)
    (d : List (String × String)) : QueryGenerator × Option Err :=
  add_filter_conditions qg [.dict d]

/-- `set_time_range(days, hours)`.  The arguments are taken after Python's
`int()` coercion (the source accepts ints or integer-valued strings); `now` is
the instant read by both `datetime.now(timezone.utc)` calls.
`timedelta(days, hours)` spans `days*86400 + hours*3600` seconds. -/
def set_time_range (qg : QueryGenerator) (days hours : Int) (now : Int) :
    QueryGenerator × Option Err :=
  if days < 0 ∨ hours < 0 then (qg, some .negativeRange)
  else
    ({ qg with
        params :=
          { qg.params with
              timeRangeStart := .time (now - (days * 86400 + hours * 3600))
              timeRangeStop := .time now } },
     none)

/-- The codepoints of the digit-zero character of every run of ten
consecutive decimal digits (Unicode `Numeric_Type=Decimal`, the characters
`int()` converts, decimal value `c - base`), Unicode 14.0.0 as shipped with
CPython 3.11. -/
def decimal_zero_bases : List Nat :=
  [48, 1632, 1776, 1984, 2406, 2534, 2662, 2790, 2918, 3046, 3174, 3302,
   3430, 3558, 3664, 3792, 3872, 4160, 4240, 6112, 6160, 6470, 6608, 6784,
   6800, 6992, 7088, 7232, 7248, 42528, 43216, 43264, 43472, 43504, 43600,
   44016, 65296, 66720, 68912, 69734, 69872, 69942, 70096, 70384, 70736,
   70864, 71248, 71360, 71472, 71904, 72016, 72784, 73040, 73120, 92768,
   92864, 93008, 120782, 120792, 120802, 120812, 120822, 123200, 123632,
   125264, 130032]

/-- The codepoint ranges of the characters with Unicode `Numeric_Type=Digit`
and no decimal value: `str.isdigit` accepts them but `int()` raises
`ValueError` on them (superscripts, subscripts, circled digits, ...),
Unicode 14.0.0 as shipped with CPython 3.11. -/
def digit_nondecimal_ranges : List (Nat × Nat) :=
  [(178, 179), (185, 185), (4969, 4977), (6618, 6618), (8304, 8304),
   (8308, 8313), (8320, 8329), (9312, 9320), (9332, 9340), (9352, 9360),
   (9450, 9450), (9461, 9469), (9471, 9471), (10102, 10110), (10112, 10120),
   (10122, 10130), (68160, 68163), (69216, 69224), (69714, 69722),
   (127232, 127242)]

/-- The decimal value of a character, when it has one (the per-character
behaviour of `int()` on digits). -/
def char_decimal? (c : Char) : Option Nat :=
  (decimal_zero_bases.find? (fun b => b ≤ c.toNat && c.toNat ≤ b + 9)).map
    (fun b => c.toNat - b)

/-- Python's per-character `str.isdigit`: true for characters with
`Numeric_Type` `Decimal` or `Digit`. -/
def char_isdigit (c : Char) : Bool :=
  (char_decimal? c).isSome
    || digit_nondecimal_ranges.any (fun p => p.1 ≤ c.toNat && c.toNat ≤ p.2)

/-- Python's `str.isdigit`: nonempty and every character a digit. -/
def str_isdigit (s : String) : Bool :=
  !s.toList.isEmpty && s.toList.all char_isdigit

/-- Python's `int()` as used in `set_window_period` (on a string that already
passed `str.isdigit`, so without sign, whitespace or underscores): the base-10
value when every character is a decimal digit, `none` (a raised `ValueError`)
otherwise. -/
def py_int? (cs : List Char) : Option Nat :=
  if cs.all (fun c => (char_decimal? c).isSome) then
    some (cs.foldl (fun n c => n * 10 + (char_decimal? c).getD 0) 0)
  else none

/-- Python's `window_period[:-1]`: the string without its last character. -/
def dropLastStr (w : String) : String :=
  String.mk w.toList.dropLast

/-- The `time_dict = {'s': 1, 'm': 60, 'h': 3600, 'd': 86400}` lookup.  The
source only reads it after the unit check passed, so the default 0 branch is
never reached from `set_window_period`. -/
def time_dict (c : Char) : Nat :=
  if c = 's' then 1
  else if c = 'm' then 60
  else if c = 'h' then 3600
  else if c = 'd' then 86400
  else 0

/-- `set_window_period(window_period)`.  On the empty string the very first
statement, `window_period[-1]`, raises `IndexError` before any validation;
otherwise `window_period[-1]` is the last character and `window_period[:-1]`
the rest.  After both checks pass, `int(window_period[:-1])` may still raise
`ValueError` (a digit-typed, non-decimal prefix such as a superscript); a
converted value is stored as `timedelta(seconds=int(prefix) * time_dict[unit])`. -/
def set_window_period (qg : QueryGenerator) (w : String) :
    QueryGenerator × Option Err :=
  match w.toList.getLast? with
  | none => (qg, some .indexError)
  | some last =>
    if ¬ (last = 's' ∨ last = 'm' ∨ last = 'h' ∨ last = 'd') then
      (qg, some .badWindowUnit)
    else if ¬ str_isdigit (dropLastStr w) then (qg, some .badWindowMagnitude)
    else
      match py_int? w.toList.dropLast with
      | none => (qg, some .intValueError)
      | some n =>
        ({ qg with
            params :=
              { qg.params with windowPeriod := .dur (n * time_dict last) } },
         none)

/-- `set_aggregation_type(aggregation_type)`. -/
def set_aggregation_type (qg : QueryGenerator) (t : String) :
    QueryGenerator × Option Err :=
  if t ∈ (["raw", "windowed"] : List String) then
    ({ qg with aggregation_type := t }, none)
  else (qg, some .badAggregationType)

/-- The aggregation string chosen inside `generate()`:
the `aggregateWindow`/`yield` clause when `self.aggregation_type == 'windowed'`,
the empty string otherwise. -/
def aggregation_clause : String :=
  "|> aggregateWindow(every: windowPeriod, fn: mean, createEmpty: false)\n|> yield(name: \"mean\")"

/-- The aggregation segment `generate()` inserts for the given state. -/
def aggregation_of (qg : QueryGenerator) : String :=
  if qg.aggregation_type = "windowed" then aggregation_clause else ""

/-- `generate()`.  `self.query.format(...)` substitutes the two placeholders of
the constant template `queryTemplate` (inserted values are not re-scanned by
Python's `str.format`), and the method returns `(query, self.params)`.  The
body contains no attribute assignment and no raise statement, so the post
state is `self` unchanged and the error component is `none` by construction. -/
def generate (qg : QueryGenerator) :
    (String × Params) × QueryGenerator × Option Err :=
  ((queryPre ++ qg.filter_conditions ++ queryMid ++ aggregation_of qg ++ querySuf,
    qg.params),
   qg, none)

/-- The checks of the `add_filter_conditions` loop body for one condition:
a dict, containing the three keys, with an allowed operator. -/
def valid_condition : PyObj → Bool
  | .nonDict => false
  | .dict d =>
    (d.lookup "field").isSome && (d.lookup "operator").isSome
      && (d.lookup "value").isSome
      && decide (((d.lookup "operator").getD "") ∈ ALLOWED_OPERATORS)

/-- The clause `add_filter_conditions` appends for one (valid) condition. -/
def clause_of : PyObj → String
  | .dict d =>
    filter_clause ((d.lookup "field").getD "") ((d.lookup "operator").getD "")
      ((d.lookup "value").getD "")
  | .nonDict => ""

/-- The concatenation, in input order, of the clauses of a condition list. -/
def clauses_of (cs : List PyObj) : String :=
  cs.foldr (fun c acc => clause_of c ++ acc) ""

/-- A sample valid condition (the end-to-end example of the spec). -/
def sampleCond : PyObj :=
  .dict [("field", "host"), ("operator", "=="), ("value", "server1")]

/-- A second sample valid condition. -/
def sampleCond2 : PyObj :=
  .dict [("field", "region"), ("operator", "!="), ("value", "eu")]

/-- A sample invalid condition: its operator `=~` is not in
`ALLOWED_OPERATORS`. -/
def badCond : PyObj :=
  .dict [("field", "region"), ("operator", "=~"), ("value", "eu")]

/-- Processing one condition that passes all checks appends its clause and
continues with the rest of the list. -/
theorem add_filter_conditions_valid_cons (qg : QueryGenerator) (c : PyObj)
    (rest : List PyObj) (h : valid_condition c = true) :
    add_filter_conditions qg (c :: rest)
      = add_filter_conditions
          { qg with filter_conditions := qg.filter_conditions ++ clause_of c }
          rest := by
  cases c with
  | nonDict => simp [valid_condition] at h
  | dict d =>
    rcases hf : d.lookup "field" with _ | f
    · simp [valid_condition, hf] at h
    rcases ho : d.lookup "operator" with _ | op
    · simp [valid_condition, hf, ho] at h
    rcases hv : d.lookup "value" with _ | v
    · simp [valid_condition, hf, ho, hv] at h
    have hop : op ∈ ALLOWED_OPERATORS := by
      simpa [valid_condition, hf, ho, hv] using h
    simp [add_filter_conditions, clause_of, hf, ho, hv, hop]

/-- Processing one condition that fails a check raises and leaves the state as
it was when the loop iteration began. -/
theorem add_filter_conditions_invalid_cons (qg : QueryGenerator) (c : PyObj)
    (rest : List PyObj) (h : valid_condition c = false) :
    (add_filter_conditions qg (c :: rest)).1 = qg ∧
    (add_filter_conditions qg (c :: rest)).2.isSome = true := by
  cases c with
  | nonDict => exact ⟨rfl, rfl⟩
  | dict d =>
    rcases hf : d.lookup "field" with _ | f
    · simp [add_filter_conditions, hf]
    rcases ho : d.lookup "operator" with _ | op
    · simp [add_filter_conditions, hf, ho]
    rcases hv : d.lookup "value" with _ | v
    · simp [add_filter_conditions, hf, ho, hv]
    have hop : op ∉ ALLOWED_OPERATORS := by
      simpa [valid_condition, hf, ho, hv] using h
    simp [add_filter_conditions, hf, ho, hv, hop]

/-- A block of valid conditions at the front of the list is consumed by
appending exactly its clauses, in input order, before the rest is processed. -/
theorem add_filter_conditions_append_valid (good : List PyObj)
    (h : ∀ c ∈ good, valid_condition c = true) (qg : QueryGenerator)
    (xs : List PyObj) :
    add_filter_conditions qg (good ++ xs)
      = add_filter_conditions
          { qg with filter_conditions := qg.filter_conditions ++ clauses_of good }
          xs := by
  induction good generalizing qg with
  | nil =>
    simp only [List.nil_append, clauses_of, List.foldr_nil, String.append_empty]
  | cons c cs ih =>
    rw [List.cons_append,
      add_filter_conditions_valid_cons qg c (cs ++ xs) (h c (by simp)),
      ih (fun x hx => h x (by simp [hx]))]
    have : qg.filter_conditions ++ clause_of c ++ clauses_of cs
        = qg.filter_conditions ++ clauses_of (c :: cs) := by
      rw [String.append_assoc]
      rfl
    rw [this]

/-- C2: for all non-negative `(days, hours)` (after integer coercion),
`set_time_range` succeeds and the stored stop minus the stored start is
exactly `days*24 + hours` hours, i.e. `(days*24 + hours) * 3600` seconds. -/
theorem set_time_range_span (qg : QueryGenerator) (days hours now : Int)
    (h1 : 0 ≤ days) (h2 : 0 ≤ hours) :
    (set_time_range qg days hours now).2 = none ∧
    ((set_time_range qg days hours now).1.params.timeRangeStop).epoch
        - ((set_time_range qg days hours now).1.params.timeRangeStart).epoch
      = (days * 24 + hours) * 3600 := by
  unfold set_time_range
  rw [if_neg (by omega : ¬ (days < 0 ∨ hours < 0))]
  refine ⟨rfl, ?_⟩
  simp only [PValue.epoch]
  ring

/-- C2 witness: `days = 1`, `hours = 0` at a concrete state and clock. -/
theorem set_time_range_span_witness :
    (0 : Int) ≤ 1 ∧ (0 : Int) ≤ 0 ∧
    ((set_time_range (QueryGenerator.init "metrics" 0) 1 0 2678400).2 = none ∧
      ((set_time_range (QueryGenerator.init "metrics" 0) 1 0
            2678400).1.params.timeRangeStop).epoch
          - ((set_time_range (QueryGenerator.init "metrics" 0) 1 0
            2678400).1.params.timeRangeStart).epoch
        = ((1 : Int) * 24 + 0) * 3600) :=
  ⟨by decide, by decide,
    set_time_range_span (QueryGenerator.init "metrics" 0) 1 0 2678400
      (by decide) (by decide)⟩

/-- C3: a negative `days` or `hours` makes `set_time_range` raise the
range-validation error and leaves the whole state, in particular the parameter
map, exactly as it was. -/
theorem set_time_range_negative_rejected (qg : QueryGenerator)
    (days hours now : Int) (h : days < 0 ∨ hours < 0) :
    (set_time_range qg days hours now).2 = some Err.negativeRange ∧
    (set_time_range qg days hours now).1 = qg := by
  unfold set_time_range
  rw [if_pos h]
  exact ⟨rfl, rfl⟩

/-- C3 witness: `days = -1`, `hours = 0` at a concrete state and clock. -/
theorem set_time_range_negative_rejected_witness :
    ((-1 : Int) < 0 ∨ (0 : Int) < 0) ∧
    ((set_time_range (QueryGenerator.init "metrics" 0) (-1) 0 2678400).2
        = some Err.negativeRange ∧
      (set_time_range (QueryGenerator.init "metrics" 0) (-1) 0 2678400).1
        = QueryGenerator.init "metrics" 0) :=
  ⟨by decide,
    set_time_range_negative_rejected (QueryGenerator.init "metrics" 0) (-1) 0
      2678400 (by decide)⟩

/-- C6: `generate()` raises no error, leaves the state unchanged, and a second
call on the resulting state returns the identical `(query, params)` output. -/
theorem generate_idempotent_pure (qg : QueryGenerator) :
    (generate qg).2.2 = none ∧ (generate qg).2.1 = qg ∧
    generate (generate qg).2.1 = generate qg :=
  ⟨rfl, rfl, rfl⟩

/-- C8 amended: construction stores the bucket, a start 30 days before now, a
stop of now, the default window period as the original string `"1d"` (not as a
seconds-based duration), aggregation mode `windowed`, and no filter clauses. -/
theorem init_defaults (bucket : String) (now : Int) :
    (QueryGenerator.init bucket now).params.stringParam = bucket ∧
    (QueryGenerator.init bucket now).params.timeRangeStart
      = PValue.timeStr (now - 30 * 86400) ∧
    (QueryGenerator.init bucket now).params.timeRangeStop = PValue.timeStr now ∧
    (QueryGenerator.init bucket now).params.windowPeriod = PValue.str "1d" ∧
    (QueryGenerator.init bucket now).aggregation_type = "windowed" ∧
    (QueryGenerator.init bucket now).filter_conditions = "" :=
  ⟨rfl, rfl, rfl, rfl, rfl, rfl⟩

/-- C8 counterexample: the freshly constructed instance stores the window
period as the string `"1d"`, which is not a duration value. -/
theorem init_windowPeriod_not_duration :
    (QueryGenerator.init "metrics" 0).params.windowPeriod = PValue.str "1d" ∧
    PValue.isDuration (QueryGenerator.init "metrics" 0).params.windowPeriod
      = false := by
  decide

/-- C10: `set_window_period("")` raises the indexing error (Python's
`IndexError` from `""[-1]`), which is not one of the `ValueError`-based
validation errors, and mutates nothing. -/
theorem set_window_period_empty_index_error (qg : QueryGenerator) :
    (set_window_period qg "").2 = some Err.indexError ∧
    (set_window_period qg "").1 = qg ∧
    Err.isValueError Err.indexError = false ∧
    isWindowError (set_window_period qg "").2 = false :=
  ⟨rfl, rfl, rfl, rfl⟩

/-- C7: `set_aggregation_type` raises the aggregation-validation error exactly
when the mode is neither `"raw"` nor `"windowed"`; on an accepted mode it sets
the aggregation mode to that value and changes nothing else, and on a rejected
mode it changes nothing at all. -/
theorem set_aggregation_type_validation (qg : QueryGenerator) (t : String) :
    ((set_aggregation_type qg t).2 = some Err.badAggregationType
        ↔ ¬ (t = "raw" ∨ t = "windowed")) ∧
    (set_aggregation_type qg t).1
      = (if t = "raw" ∨ t = "windowed" then { qg with aggregation_type := t }
         else qg) := by
  unfold set_aggregation_type
  by_cases h : t = "raw" ∨ t = "windowed" <;>
    simp [List.mem_cons, List.mem_singleton, h]

/-- C5: provided the aggregation mode is one of the two values the setter
accepts, `generate()` renders an empty aggregation segment in `raw` mode and
the `aggregateWindow`/`mean`/`yield` clause (phrased over the `windowPeriod`
parameter) in `windowed` mode. -/
theorem generate_aggregation_modes (qg : QueryGenerator)
    (h : qg.aggregation_type = "raw" ∨ qg.aggregation_type = "windowed") :
    (generate qg).1.1
      = queryPre ++ qg.filter_conditions ++ queryMid
          ++ (if qg.aggregation_type = "raw" then "" else aggregation_clause)
          ++ querySuf := by
  rcases h with h | h <;> simp [generate, aggregation_of, h]

/-- C5 witness: a state in `raw` mode, reached through the setter. -/
theorem generate_aggregation_modes_witness :
    ((set_aggregation_type (QueryGenerator.init "metrics" 0) "raw").1.aggregation_type = "raw"
      ∨ (set_aggregation_type (QueryGenerator.init "metrics" 0) "raw").1.aggregation_type = "windowed") ∧
    (generate (set_aggregation_type (QueryGenerator.init "metrics" 0) "raw").1).1.1
      = queryPre
          ++ (set_aggregation_type (QueryGenerator.init "metrics" 0) "raw").1.filter_conditions
          ++ queryMid
          ++ (if (set_aggregation_type (QueryGenerator.init "metrics" 0) "raw").1.aggregation_type = "raw"
              then "" else aggregation_clause)
          ++ querySuf :=
  ⟨by decide,
    generate_aggregation_modes
      (set_aggregation_type (QueryGenerator.init "metrics" 0) "raw").1
      (by decide)⟩

/-- The outcome of `set_window_period` on a nonempty string, written out by
branch: unit check, digit check, then the fallible `int()` conversion. -/
theorem set_window_period_eq (qg : QueryGenerator) (w : String) (last : Char)
    (hlast : w.toList.getLast? = some last) :
    set_window_period qg w
      = if ¬ (last = 's' ∨ last = 'm' ∨ last = 'h' ∨ last = 'd') then
          (qg, some .badWindowUnit)
        else if ¬ str_isdigit (dropLastStr w) then
          (qg, some .badWindowMagnitude)
        else
          match py_int? w.toList.dropLast with
          | none => (qg, some .intValueError)
          | some n =>
            ({ qg with
                params :=
                  { qg.params with windowPeriod := .dur (n * time_dict last) } },
             none) := by
  unfold set_window_period
  rw [hlast]

/-- The program accepts and converts a fullwidth decimal prefix: `"５s"`
stores a 5-second duration. -/
theorem set_window_period_fullwidth_digit :
    (set_window_period (QueryGenerator.init "metrics" 0) "５s").2 = none ∧
    (set_window_period (QueryGenerator.init "metrics" 0)
        "５s").1.params.windowPeriod = PValue.dur 5 := by
  decide

/-- C4 counterexample: the superscript prefix of `"²s"` passes both
validation checks (`str.isdigit` accepts digit-typed characters), yet the
call raises — the uncaught `ValueError` from `int()`, which is not a
window-validation error — and stores nothing. -/
theorem set_window_period_digit_not_decimal :
    ("²s" : String).toList.getLast? = some 's' ∧
    str_isdigit (dropLastStr "²s") = true ∧
    (set_window_period (QueryGenerator.init "metrics" 0) "²s").2
      = some Err.intValueError ∧
    isWindowError (set_window_period (QueryGenerator.init "metrics" 0) "²s").2
      = false ∧
    (set_window_period (QueryGenerator.init "metrics" 0) "²s").1
      = QueryGenerator.init "metrics" 0 := by
  decide

/-- C4 amended: for a nonempty window-period string, `set_window_period`
raises a window-validation error exactly when the last character is not one
of `s`,`m`,`h`,`d` or the remaining prefix fails Python's `str.isdigit`; on
every call that returns without raising, the stored value is the duration
`int(prefix) * multiplier` seconds with multipliers {s:1, m:60, h:3600,
d:86400}; a prefix of digit-typed but non-decimal characters passes both
checks but raises an uncaught `ValueError` from `int()` — exactly when the
conversion has no value — and stores nothing; the spec's examples `"30s"`,
`"5m"`, `"2h"`, `"1d"` store 30, 300, 7200 and 86400 seconds. -/
theorem set_window_period_validation (qg : QueryGenerator) (w : String)
    (last : Char) (hlast : w.toList.getLast? = some last) :
    (isWindowError (set_window_period qg w).2 = true
        ↔ (¬ (last = 's' ∨ last = 'm' ∨ last = 'h' ∨ last = 'd')
            ∨ str_isdigit (dropLastStr w) = false)) ∧
    ((set_window_period qg w).2 = none →
      ∃ n, py_int? w.toList.dropLast = some n ∧
        (set_window_period qg w).1.params.windowPeriod
          = PValue.dur (n * time_dict last)) ∧
    ((set_window_period qg w).2 = some Err.intValueError
        ↔ ((last = 's' ∨ last = 'm' ∨ last = 'h' ∨ last = 'd')
            ∧ str_isdigit (dropLastStr w) = true
            ∧ py_int? w.toList.dropLast = none)) ∧
    ((set_window_period qg w).2 = some Err.intValueError →
      (set_window_period qg w).1 = qg) ∧
    (set_window_period qg "30s").1.params.windowPeriod = PValue.dur 30 ∧
    (set_window_period qg "5m").1.params.windowPeriod = PValue.dur 300 ∧
    (set_window_period qg "2h").1.params.windowPeriod = PValue.dur 7200 ∧
    (set_window_period qg "1d").1.params.windowPeriod = PValue.dur 86400 := by
  refine ⟨?_, ?_, ?_, ?_, ?_, ?_, ?_, ?_⟩
  · rw [set_window_period_eq qg w last hlast]
    by_cases h1 : last = 's' ∨ last = 'm' ∨ last = 'h' ∨ last = 'd'
    · by_cases h2 : str_isdigit (dropLastStr w) = true
      · rcases hpi : py_int? w.toList.dropLast with _ | n <;>
          simp [h1, h2, hpi, isWindowError]
      · simp only [Bool.not_eq_true] at h2
        simp [h1, h2, isWindowError]
    · simp [h1, isWindowError]
  · rw [set_window_period_eq qg w last hlast]
    by_cases h1 : last = 's' ∨ last = 'm' ∨ last = 'h' ∨ last = 'd'
    · by_cases h2 : str_isdigit (dropLastStr w) = true
      · rcases hpi : py_int? w.toList.dropLast with _ | n
        · simp [h1, h2, hpi]
        · intro _
          refine ⟨n, rfl, ?_⟩
          simp [h1, h2, hpi]
      · simp only [Bool.not_eq_true] at h2
        simp [h1, h2]
    · simp [h1]
  · rw [set_window_period_eq qg w last hlast]
    by_cases h1 : last = 's' ∨ last = 'm' ∨ last = 'h' ∨ last = 'd'
    · by_cases h2 : str_isdigit (dropLastStr w) = true
      · rcases hpi : py_int? w.toList.dropLast with _ | n <;>
          simp [h1, h2, hpi]
      · simp only [Bool.not_eq_true] at h2
        simp [h1, h2]
    · simp [h1]
  · rw [set_window_period_eq qg w last hlast]
    by_cases h1 : last = 's' ∨ last = 'm' ∨ last = 'h' ∨ last = 'd'
    · by_cases h2 : str_isdigit (dropLastStr w) = true
      · rcases hpi : py_int? w.toList.dropLast with _ | n
        · intro _
          simp [h1, h2, hpi]
        · simp [h1, h2, hpi]
      · simp only [Bool.not_eq_true] at h2
        simp [h1, h2]
    · simp [h1]
  · rcases qg with ⟨⟨a, b, c, d⟩, e, f⟩
    rfl
  · rcases qg with ⟨⟨a, b, c, d⟩, e, f⟩
    rfl
  · rcases qg with ⟨⟨a, b, c, d⟩, e, f⟩
    rfl
  · rcases qg with ⟨⟨a, b, c, d⟩, e, f⟩
    rfl

/-- C4 witness: the accepted input `"30s"` at a concrete state. -/
theorem set_window_period_validation_witness :
    ("30s" : String).toList.getLast? = some 's' ∧
    ((isWindowError (set_window_period (QueryGenerator.init "metrics" 0) "30s").2 = true
        ↔ (¬ ('s' = 's' ∨ 's' = 'm' ∨ 's' = 'h' ∨ 's' = 'd')
            ∨ str_isdigit (dropLastStr "30s") = false)) ∧
      ((set_window_period (QueryGenerator.init "metrics" 0) "30s").2 = none →
        ∃ n, py_int? ("30s" : String).toList.dropLast = some n ∧
          (set_window_period (QueryGenerator.init "metrics" 0) "30s").1.params.windowPeriod
            = PValue.dur (n * time_dict 's')) ∧
      ((set_window_period (QueryGenerator.init "metrics" 0) "30s").2 = some Err.intValueError
          ↔ (('s' = 's' ∨ 's' = 'm' ∨ 's' = 'h' ∨ 's' = 'd')
              ∧ str_isdigit (dropLastStr "30s") = true
              ∧ py_int? ("30s" : String).toList.dropLast = none)) ∧
      ((set_window_period (QueryGenerator.init "metrics" 0) "30s").2 = some Err.intValueError →
        (set_window_period (QueryGenerator.init "metrics" 0) "30s").1
          = QueryGenerator.init "metrics" 0) ∧
      (set_window_period (QueryGenerator.init "metrics" 0) "30s").1.params.windowPeriod = PValue.dur 30 ∧
      (set_window_period (QueryGenerator.init "metrics" 0) "5m").1.params.windowPeriod = PValue.dur 300 ∧
      (set_window_period (QueryGenerator.init "metrics" 0) "2h").1.params.windowPeriod = PValue.dur 7200 ∧
      (set_window_period (QueryGenerator.init "metrics" 0) "1d").1.params.windowPeriod = PValue.dur 86400) :=
  ⟨by decide,
    set_window_period_validation (QueryGenerator.init "metrics" 0) "30s" 's'
      (by decide)⟩

/-- C1: for a list of valid conditions, `add_filter_conditions` succeeds, the
accumulator gains exactly one clause per condition in input order (each clause
the `filter_clause` substitution of that condition's field, operator and
value), and `generate()` renders exactly that concatenation where the
`filter_conditions` placeholder of the template sits. -/
theorem generate_one_clause_per_condition (qg : QueryGenerator)
    (cs : List PyObj) (h : ∀ c ∈ cs, valid_condition c = true) :
    (add_filter_conditions qg cs).2 = none ∧
    (add_filter_conditions qg cs).1.filter_conditions
      = qg.filter_conditions ++ clauses_of cs ∧
    (generate (add_filter_conditions qg cs).1).1.1
      = queryPre ++ (qg.filter_conditions ++ clauses_of cs) ++ queryMid
          ++ aggregation_of (add_filter_conditions qg cs).1 ++ querySuf := by
  have he := add_filter_conditions_append_valid cs h qg []
  rw [List.append_nil] at he
  rw [he]
  exact ⟨rfl, rfl, rfl⟩

/-- C1 witness: two concrete valid conditions on a fresh instance. -/
theorem generate_one_clause_per_condition_witness :
    (∀ c ∈ [sampleCond, sampleCond2], valid_condition c = true) ∧
    ((add_filter_conditions (QueryGenerator.init "metrics" 0)
        [sampleCond, sampleCond2]).2 = none ∧
      (add_filter_conditions (QueryGenerator.init "metrics" 0)
          [sampleCond, sampleCond2]).1.filter_conditions
        = (QueryGenerator.init "metrics" 0).filter_conditions
            ++ clauses_of [sampleCond, sampleCond2] ∧
      (generate (add_filter_conditions (QueryGenerator.init "metrics" 0)
            [sampleCond, sampleCond2]).1).1.1
        = queryPre
            ++ ((QueryGenerator.init "metrics" 0).filter_conditions
                ++ clauses_of [sampleCond, sampleCond2])
            ++ queryMid
            ++ aggregation_of (add_filter_conditions
                (QueryGenerator.init "metrics" 0) [sampleCond, sampleCond2]).1
            ++ querySuf) :=
  ⟨by decide,
    generate_one_clause_per_condition (QueryGenerator.init "metrics" 0)
      [sampleCond, sampleCond2] (by decide)⟩

/-- C9: when a condition in the middle of the list fails validation, the call
raises but the clauses of the valid conditions before it stay in the
accumulator (no rollback), and a later `generate()` renders exactly those
clauses. -/
theorem add_filter_conditions_no_rollback (qg : QueryGenerator)
    (good : List PyObj) (bad : PyObj) (rest : List PyObj)
    (hg : ∀ c ∈ good, valid_condition c = true)
    (hb : valid_condition bad = false) :
    (add_filter_conditions qg (good ++ bad :: rest)).2.isSome = true ∧
    (add_filter_conditions qg (good ++ bad :: rest)).1.filter_conditions
      = qg.filter_conditions ++ clauses_of good ∧
    (generate (add_filter_conditions qg (good ++ bad :: rest)).1).1.1
      = queryPre ++ (qg.filter_conditions ++ clauses_of good) ++ queryMid
          ++ aggregation_of (add_filter_conditions qg (good ++ bad :: rest)).1
          ++ querySuf := by
  rw [add_filter_conditions_append_valid good hg qg (bad :: rest)]
  obtain ⟨h1, h2⟩ :=
    add_filter_conditions_invalid_cons
      { qg with filter_conditions := qg.filter_conditions ++ clauses_of good }
      bad rest hb
  refine ⟨h2, ?_, ?_⟩
  · rw [h1]
  · rw [h1]
    rfl

/-- C9 witness: one valid condition followed by an invalid-operator one. -/
theorem add_filter_conditions_no_rollback_witness :
    (∀ c ∈ [sampleCond], valid_condition c = true) ∧
    valid_condition badCond = false ∧
    ((add_filter_conditions (QueryGenerator.init "metrics" 0)
        ([sampleCond] ++ badCond :: [])).2.isSome = true ∧
      (add_filter_conditions (QueryGenerator.init "metrics" 0)
          ([sampleCond] ++ badCond :: [])).1.filter_conditions
        = (QueryGenerator.init "metrics" 0).filter_conditions
            ++ clauses_of [sampleCond] ∧
      (generate (add_filter_conditions (QueryGenerator.init "metrics" 0)
            ([sampleCond] ++ badCond :: [])).1).1.1
        = queryPre
            ++ ((QueryGenerator.init "metrics" 0).filter_conditions
                ++ clauses_of [sampleCond])
            ++ queryMid
            ++ aggregation_of (add_filter_conditions
                (QueryGenerator.init "metrics" 0)
                ([sampleCond] ++ badCond :: [])).1
            ++ querySuf) :=
  ⟨by decide, by decide,
    add_filter_conditions_no_rollback (QueryGenerator.init "metrics" 0)
      [sampleCond] badCond [] (by decide) (by decide)⟩
